import Mathlib

/-!
Shallow embedding of `src/slurm_install_manager/slurm_install_ops.py`
(class `SlurmInstallManager`).

Modelling conventions:

* Python exceptions are values of the inductive type `Exc`; a method body is
  a computation in the monad `M`, which threads an explicit machine state
  `St` and short-circuits on a raised exception (the state at the moment of
  the raise is kept, matching Python semantics where side effects performed
  before a raise persist).
* `subprocess.call(cmd)` spawns the command and returns its integer exit
  status.  It raises an `OSError` when the process cannot be spawned at all,
  and it NEVER raises `subprocess.CalledProcessError` (that exception is only
  raised by `check_call` / `run(check=True)`, which this module does not
  use).  The embedding `subprocessCall` reproduces exactly this contract; the
  outcome of the k-th spawn attempt of a run is prescribed by the
  environment oracle `Env.outcome k`.
* `try ... except subprocess.CalledProcessError as e: logger.error(msg)`
  is embedded by `tryCPE body (logError msg)`: it catches exactly the
  exception `Exc.calledProcessError` and re-raises every other exception.
* `logger.error(f"...")` appends a message to `St.logged`.  The embedded
  messages keep the fixed prefix of the interpolated f-string.
* The filesystem is modelled by `St.fsExists` (path existence) and
  `St.fsContents` (file contents).  `Path.mkdir(parents=True)` (no
  `exist_ok`) raises `FileExistsError` when the target path already exists,
  else records the path; `Path.touch` and `Path.write_text` never raise.
* The readiness file `/tmp/slurm-resource/sbin/slurmd` is produced by the
  external `tar` child process asynchronously, so its appearance is not a
  state mutation of this program: it is prescribed by the time-indexed
  oracle `Env.availAt`, sampled at the current value of the logical clock
  `St.clock`; `sleep(1)` advances the clock by one unit.
* The unbounded `while not Path(...).exists(): sleep(1)` loop is embedded as
  the fuel-indexed `waitReady`; exhausting the fuel yields the marker
  exception `Exc.unboundedLoop`, read as "the loop is still running after
  `fuel` existence checks".  No actual execution of the Python loop raises
  this marker; theorems quantify over the fuel.
* `self.model.resources.fetch('slurm')` either returns a local path or
  raises `ops.model.ModelError`; it is prescribed by `Env.fetchResult`
  (`none` = `ModelError` raised, caught by the `except ModelError` branch).
  In that branch the Python local variable `resource_path` is never bound,
  so the later occurrence of `resource_path` inside the tar `try` block
  raises `NameError` before `subprocess.call` is entered; the embedding
  carries the optional binding and raises `Exc.nameError` in that case.
* The source method `write_config` reads `self.slurm_config_template`
  (line 96).  No such attribute exists anywhere in the class or its `ops`
  base class: the constructor only defines `_slurm_conf_template` (used
  correctly three lines below, line 110).  Attribute lookup therefore
  raises `AttributeError` before any other statement of the method body
  runs, so the remainder of the body (type check, context merge, template
  render, unlink, write) is unreachable; the context-merge expression of
  line 102 is embedded separately as `mergedContext` so that its semantics
  can be analysed.  (Line 102 also reads `self._hostname`, another
  attribute that is never defined.)
-/

/-- Exceptions raised by the embedded code (Python exception classes). -/
inductive Exc where
  | genericError (msg : String)
  | typeError (msg : String)
  | fileNotFoundError (msg : String)
  | fileExistsError (path : String)
  | attributeError (attr : String)
  | nameError (var : String)
  | osError
  | calledProcessError
  | unboundedLoop
  deriving DecidableEq

/-- Outcome of one `subprocess.call` spawn attempt, prescribed by the
environment: either the process cannot be spawned (`OSError`) or it runs
and exits with the given status. -/
inductive CallResult where
  | spawnErr
  | exit (code : Int)
  deriving DecidableEq

/-- An external command as passed to `subprocess.call`: either an argv list
or a `shell=True` command line. -/
inductive Cmd where
  | argv (args : List String)
  | shell (line : String)
  deriving DecidableEq

/-- A Python value passed as the `context` argument of `write_config`:
either a `dict` (modelled as a partial map from keys to scalar values) or a
non-dict value. -/
inductive PyVal where
  | dict (m : String → Option String)
  | str (s : String)
  | int (n : Int)

/-- Machine state threaded through a run: the spawn-attempt counter feeding
the outcome oracle, the logical clock (advanced by `sleep(1)`), the trace of
commands handed to `subprocess.call`, the `logger.error` log, the two
durable `StoredState` flags, and the filesystem. -/
structure St where
  counter : Nat
  clock : Nat
  calls : List Cmd
  logged : List String
  slurm_installed : Bool
  slurm_started : Bool
  fsExists : String → Bool
  fsContents : String → Option String

/-- Environment oracle: outcome of the k-th spawn attempt, result of the
resource fetch (`none` = `ModelError`), time-indexed existence of the
readiness file produced by the asynchronous extraction, and the charm
directory holding the templates. -/
structure Env where
  outcome : Nat → CallResult
  fetchResult : Option String
  availAt : Nat → Bool
  charm_dir : String

/-- Computation of a method body: state in, exception-or-value plus state
out.  State changes made before a raise are kept. -/
def M (α : Type) : Type := St → Except Exc α × St

def pureM {α : Type} (a : α) : M α := fun s => (Except.ok a, s)

def bindM {α β : Type} (x : M α) (f : α → M β) : M β := fun s =>
  match x s with
  | (Except.ok a, t) => f a t
  | (Except.error e, t) => (Except.error e, t)

instance : Monad M where
  pure := pureM
  bind := bindM

/-- Raise an exception (state unchanged at the point of the raise). -/
def throwE {α : Type} (e : Exc) : M α := fun s => (Except.error e, s)

def getSt : M St := fun s => (Except.ok s, s)

def modifySt (f : St → St) : M Unit := fun s => (Except.ok (), f s)

/-- Embedding of `logger.error(msg)`. -/
def logError (msg : String) : M Unit :=
  modifySt fun s => { s with logged := s.logged ++ [msg] }

/-- Embedding of `subprocess.call(cmd)`: records the attempted command,
consumes one oracle outcome; raises `OSError` on a spawn failure, otherwise
returns the exit status.  It never raises `CalledProcessError`. -/
def subprocessCall (env : Env) (c : Cmd) : M Int := fun s =>
  let t := { s with calls := s.calls ++ [c], counter := s.counter + 1 }
  match env.outcome s.counter with
  | CallResult.spawnErr => (Except.error Exc.osError, t)
  | CallResult.exit code => (Except.ok code, t)

/-- Embedding of `try: body except subprocess.CalledProcessError: handler`:
catches exactly `calledProcessError`, re-raises everything else. -/
def tryCPE {α : Type} (body : M α) (handler : M α) : M α := fun s =>
  match body s with
  | (Except.ok a, t) => (Except.ok a, t)
  | (Except.error e, t) =>
    match e with
    | Exc.calledProcessError => handler t
    | _ => (Except.error e, t)

/-- Embedding of `Path(p).mkdir(parents=True)` (no `exist_ok`): raises
`FileExistsError` when the path already exists. -/
def mkdirParents (p : String) : M Unit := fun s =>
  if s.fsExists p then (Except.error (Exc.fileExistsError p), s)
  else (Except.ok (), { s with fsExists := fun q => if q = p then true else s.fsExists q })

/-- Embedding of `Path(p).touch()`: creates the (empty) file if missing. -/
def touchFile (p : String) : M Unit :=
  modifySt fun s =>
    { s with
      fsExists := fun q => if q = p then true else s.fsExists q,
      fsContents := fun q =>
        if q = p then match s.fsContents p with | some v => some v | none => some ""
        else s.fsContents q }

/-- Embedding of `Path(p).write_text(txt)`. -/
def writeText (p : String) (txt : String) : M Unit :=
  modifySt fun s =>
    { s with
      fsExists := fun q => if q = p then true else s.fsExists q,
      fsContents := fun q => if q = p then some txt else s.fsContents q }

/-- Component descriptor computed by `__init__` from the `key` argument. -/
structure Descriptor where
  slurm_component : String
  slurm_conf_template : String
  slurm_conf : String
  source_systemd_template : String
  target_systemd_template : String

/-- Embedding of `__init__` (lines 39-63): determines the component, the
config template and target, and the systemd unit paths; raises on an
unsupported key.  The second branch of the source lists `"slurmdbd"` a
second time; that alternative is dead because the first branch already
matched it.  (The raise message of line 58 is a plain string, not an
f-string, so it literally contains the text `{key}`.) -/
def managerInit (charm_dir : String) (key : String) : Except Exc Descriptor :=
  if key = "slurmdbd" then
    Except.ok
      { slurm_component := key,
        slurm_conf_template := "slurmdbd.conf.tmpl",
        slurm_conf := "/etc/slurm/slurmdbd.conf",
        source_systemd_template := charm_dir ++ "/templates/" ++ key ++ ".service",
        target_systemd_template := "/etc/systemd/system/" ++ key ++ ".service" }
  else if key = "slurmd" ∨ key = "slurmrestd" ∨ key = "slurmctld" ∨ key = "slurmdbd" then
    Except.ok
      { slurm_component := key,
        slurm_conf_template := charm_dir ++ "/templates/slurm.conf.tmpl",
        slurm_conf := "/etc/slurm/slurm.conf",
        source_systemd_template := charm_dir ++ "/templates/" ++ key ++ ".service",
        target_systemd_template := "/etc/systemd/system/" ++ key ++ ".service" }
  else
    Except.error (Exc.genericError "Slurm component not supported: {key}")

/-- Initial `StoredState`: `set_default(slurm_installed=False)` and
`set_default(slurm_started=False)`, empty traces, clock and counter zero,
empty filesystem. -/
def initState : St :=
  { counter := 0, clock := 0, calls := [], logged := [],
    slurm_installed := false, slurm_started := false,
    fsExists := fun _ => false, fsContents := fun _ => none }

/-- Embedding of the property `slurm_installed` (lines 65-67). -/
def slurm_installed_prop (s : St) : Bool := s.slurm_installed

/-- Embedding of the property `slurm_component_started` (lines 69-71). -/
def slurm_component_started (s : St) : Bool := s.slurm_started

/-- Embedding of `slurm_systemctl` (lines 73-90): rejects operations other
than start/stop/restart with a plain `Exception`, then runs
`systemctl <operation> <component>` under the `except CalledProcessError`
handler; a `start` operation that returns from `subprocess.call` marks the
`slurm_started` flag true, whatever the exit status was. -/
def slurm_systemctl (env : Env) (component : String) (operation : String) : M Unit :=
  if ¬ (operation ∈ ["start", "stop", "restart"]) then
    throwE (Exc.genericError ("Unsupported systemctl command for " ++ component))
  else
    tryCPE
      (do
        let _ ← subprocessCall env (Cmd.argv ["systemctl", operation, component])
        if operation = "start" then
          modifySt fun s => { s with slurm_started := true }
        else
          pureM ())
      (logError "Error copying systemd - ")

/-- Embedding of the context-merge expression of `write_config` line 102,
`{**{"hostname": self._hostname}, **context}`: the second operand of the
double-splat merge overrides the first on key collision, so a key present
in the caller-supplied `context` wins over the derived hostname entry. -/
def mergedContext (hostname : String) (context : String → Option String) :
    String → Option String :=
  fun k =>
    match context k with
    | some v => some v
    | none => if k = "hostname" then some hostname else none

/-- Embedding of `write_config` (lines 92-115).  Its first effective
statement, `source = self.slurm_config_template` (line 96), reads an
attribute that is defined nowhere (the constructor defines
`_slurm_conf_template`; the base class defines no such attribute either),
so every call raises `AttributeError` there, before the context type check
of line 99 and before any filesystem access; the rest of the body is
unreachable (its merge expression is `mergedContext` above). -/
def write_config (env : Env) (d : Descriptor) (context : PyVal) : M Unit :=
  throwE (Exc.attributeError "slurm_config_template")

/-- Embedding of `_chown_slurm_user_and_group_recursive` (lines 133-143). -/
def chown_slurm_user_and_group_recursive (env : Env) (slurm_dir : String) : M Unit :=
  tryCPE
    (do
      let _ ← subprocessCall env (Cmd.argv ["chown", "-R", "slurm:slurm", slurm_dir])
      pureM ())
    (logError ("Error chowning " ++ slurm_dir ++ " - "))

/-- Embedding of `_create_slurm_user_and_group` (lines 145-167). -/
def create_slurm_user_and_group (env : Env) : M Unit := do
  tryCPE
    (do
      let _ ← subprocessCall env (Cmd.argv ["groupadd", "-r", "--gid=995", "slurm"])
      pureM ())
    (logError "Error creating slurm - ")
  tryCPE
    (do
      let _ ← subprocessCall env
        (Cmd.argv ["useradd", "-r", "-g", "slurm", "--uid=995", "slurm"])
      pureM ())
    (logError "Error creating slurm - ")

/-- Embedding of `_prepare_for_slurmd` (lines 169-194): `mkdir` each slurmd
directory (no tolerance for pre-existing paths) and chown it, touch the
state files, then chown `/var/lib/slurmd` again. -/
def prepare_for_slurmd (env : Env) : M Unit := do
  ["/var/spool/slurmd", "/var/run/slurmd", "/var/lib/slurmd", "/etc/slurm"].forM
    (fun slurmd_dir => do
      mkdirParents slurmd_dir
      chown_slurm_user_and_group_recursive env slurmd_dir)
  ["/var/lib/slurmd/node_state",
   "/var/lib/slurmd/front_end_state",
   "/var/lib/slurmd/job_state",
   "/var/lib/slurmd/resv_state",
   "/var/lib/slurmd/trigger_state",
   "/var/lib/slurmd/assoc_mgr_state",
   "/var/lib/slurmd/assoc_usage",
   "/var/lib/slurmd/qos_usage",
   "/var/lib/slurmd/fed_mgr_state"].forM touchFile
  chown_slurm_user_and_group_recursive env "/var/lib/slurmd"

/-- Embedding of `_prepare_filesystem` (lines 196-207): `mkdir` (and chown)
each generic directory; the `mkdir` calls are not wrapped in any handler,
so a `FileExistsError` on an already-existing path propagates out. -/
def prepare_filesystem (env : Env) (component : String) : M Unit := do
  ["/etc/sysconfig/slurm", "/var/log/slurm"].forM
    (fun slurm_dir => do
      mkdirParents slurm_dir
      chown_slurm_user_and_group_recursive env slurm_dir)
  if component = "slurmd" then prepare_for_slurmd env else pureM ()

/-- Embedding of the readiness poll of `_provision_slurm_resource`
(lines 229-232): `while not Path("/tmp/slurm-resource/sbin/slurmd").exists():
sleep(1)`.  The existence check samples `Env.availAt` at the current clock;
a failed check sleeps one unit (clock + 1) and retries.  The loop has no
bound in the source; the fuel argument only limits how far the embedding
unrolls it, with `Exc.unboundedLoop` marking a still-running loop. -/
def waitReady (env : Env) : Nat → M Unit
  | 0 => throwE Exc.unboundedLoop
  | Nat.succ n => fun s =>
    if env.availAt s.clock then (Except.ok (), s)
    else waitReady env n { s with clock := s.clock + 1 }

/-- Embedding of `_provision_slurm_resource` (lines 209-242).  The fetch
failure (`ModelError`) is logged but leaves the local `resource_path`
unbound, so the later use of that name inside the tar `try` block raises
`NameError` (which `except CalledProcessError` does not catch) before
`subprocess.call` is entered.  After extraction is started, the readiness
poll runs, then the four subtrees are copied with `shell=True` commands,
each under its own `except CalledProcessError` handler. -/
def provision_slurm_resource (env : Env) (fuel : Nat) : M Unit :=
  bindM
    (match env.fetchResult with
     | some p => pureM (some p)
     | none =>
       bindM (logError "Resource could not be found when executing: ")
         fun _ => pureM (none : Option String))
    fun resource_path =>
  bindM
    (tryCPE
      (bindM
        (match resource_path with
         | some p => pureM p
         | none => throwE (Exc.nameError "resource_path"))
        fun p =>
          bindM
            (subprocessCall env
              (Cmd.argv ["tar", "-xzvf", p, "--one-top-level=/tmp/slurm-resource"]))
            fun _ => pureM ())
      (logError "Error untaring slurm bins - "))
    fun _ =>
  bindM (waitReady env fuel) fun _ =>
    ["bin", "sbin", "lib", "include"].forM
      (fun slurm_resource_dir =>
        tryCPE
          (bindM
            (subprocessCall env
              (Cmd.shell ("cp -R /tmp/slurm-resource/" ++ slurm_resource_dir ++
                "/* /usr/local/" ++ slurm_resource_dir ++ "/")))
            fun _ => pureM ())
          (logError "Error provisioning fs - "))

/-- Embedding of `_set_ld_library_path` (lines 244-250). -/
def set_ld_library_path (env : Env) : M Unit := do
  writeText "/etc/ld.so.conf.d/slurm.conf" "/usr/local/lib/slurm"
  tryCPE
    (do
      let _ ← subprocessCall env (Cmd.argv ["ldconfig"])
      pureM ())
    (logError "Error setting LD_LIBRARY_PATH - ")

/-- Embedding of `_setup_systemd` (lines 252-266): copy the unit template,
`systemctl daemon-reload`, then `self.slurm_systemctl("enable")` — all under
a single `except CalledProcessError` handler.  Note that `slurm_systemctl`
rejects `"enable"` (its allowed list is start/stop/restart) with a plain
`Exception`, which the handler does not catch. -/
def setup_systemd (env : Env) (d : Descriptor) : M Unit :=
  tryCPE
    (do
      let _ ← subprocessCall env
        (Cmd.argv ["cp", d.source_systemd_template, d.target_systemd_template])
      let _ ← subprocessCall env (Cmd.argv ["systemctl", "daemon-reload"])
      slurm_systemctl env d.slurm_component "enable")
    (logError "Error setting up systemd - ")

/-- Embedding of `prepare_system_for_slurm` (lines 117-131): the ordered
provisioning sequence, marking `slurm_installed` true at the end. -/
def prepare_system_for_slurm (env : Env) (d : Descriptor) (fuel : Nat) : M Unit := do
  create_slurm_user_and_group env
  prepare_filesystem env d.slurm_component
  provision_slurm_resource env fuel
  set_ld_library_path env
  setup_systemd env d
  modifySt fun s => { s with slurm_installed := true }

/-- The operations of the manager, used to quantify over every method a
caller can reach. -/
inductive ManagerOp where
  | systemctl (operation : String)
  | writeConfig (context : PyVal)
  | prepareSystem (fuel : Nat)
  | chownDir (dir : String)
  | createUser
  | prepareFs
  | prepareSlurmd
  | provision (fuel : Nat)
  | setLd
  | setupUnit

/-- Dispatch a `ManagerOp` to the embedded method it names. -/
def runOp (env : Env) (d : Descriptor) : ManagerOp → M Unit
  | ManagerOp.systemctl operation => slurm_systemctl env d.slurm_component operation
  | ManagerOp.writeConfig context => write_config env d context
  | ManagerOp.prepareSystem fuel => prepare_system_for_slurm env d fuel
  | ManagerOp.chownDir dir => chown_slurm_user_and_group_recursive env dir
  | ManagerOp.createUser => create_slurm_user_and_group env
  | ManagerOp.prepareFs => prepare_filesystem env d.slurm_component
  | ManagerOp.prepareSlurmd => prepare_for_slurmd env
  | ManagerOp.provision fuel => provision_slurm_resource env fuel
  | ManagerOp.setLd => set_ld_library_path env
  | ManagerOp.setupUnit => setup_systemd env d

/-- Environment in which every spawn attempt succeeds and returns the exit
status prescribed by `codes` (no process-spawn errors). -/
def allExit (codes : Nat → Int) (fetch : Option String) (avail : Nat → Bool) : Env :=
  { outcome := fun k => CallResult.exit (codes k),
    fetchResult := fetch,
    availAt := avail,
    charm_dir := "/charm" }

/-! ## Claim theorems -/

/-- C1 (code bug): the claim states that the service-registration step
`_setup_systemd` performs its three sub-steps (copy the unit template,
reload the unit cache, enable the unit) under the swallow-and-log policy
and returns normally.  In the source, the third sub-step is
`self.slurm_systemctl("enable")`, but `slurm_systemctl` only admits
start/stop/restart and raises a plain `Exception` for `"enable"`, which the
`except CalledProcessError` handler does not catch: for every component and
every environment in which the two external commands spawn normally,
`_setup_systemd` raises that exception (and logs nothing), so the step
never returns normally and the enable sub-step never reaches `systemctl`. -/
theorem C1_setup_systemd_always_raises (codes : Nat → Int) (f : Option String)
    (a : Nat → Bool) (d : Descriptor) (s : St) :
    ((setup_systemd (allExit codes f a) d) s).1
      = Except.error (Exc.genericError ("Unsupported systemctl command for " ++ d.slurm_component))
    ∧ (((setup_systemd (allExit codes f a) d) s).2).logged = s.logged
    ∧ (((setup_systemd (allExit codes f a) d) s).2).calls
        = (s.calls ++ [Cmd.argv ["cp", d.source_systemd_template, d.target_systemd_template]])
            ++ [Cmd.argv ["systemctl", "daemon-reload"]] :=
  ⟨rfl, rfl, rfl⟩

/-- C2 counterexample: the claim states that in the merged context of
`write_config` the derived hostname fact takes precedence over a
caller-supplied `"hostname"` entry.  At the concrete input where the
resolved hostname is `"host-a"` and the caller context maps `"hostname"`
to `"host-b"`, the merge expression of line 102 yields `"host-b"`, the
caller value, not `"host-a"`; moreover `write_config` itself never even
reaches the merge: it raises `AttributeError` on the undefined attribute
`slurm_config_template` with the state unchanged. -/
theorem C2_counterexample :
    mergedContext "host-a" (fun k => if k = "hostname" then some "host-b" else none) "hostname"
      = some "host-b"
    ∧ mergedContext "host-a" (fun k => if k = "hostname" then some "host-b" else none) "hostname"
      ≠ some "host-a"
    ∧ (write_config (allExit (fun _ => 0) none (fun _ => false))
        { slurm_component := "slurmctld",
          slurm_conf_template := "/charm/templates/slurm.conf.tmpl",
          slurm_conf := "/etc/slurm/slurm.conf",
          source_systemd_template := "/charm/templates/slurmctld.service",
          target_systemd_template := "/etc/systemd/system/slurmctld.service" }
        (PyVal.dict (fun k => if k = "hostname" then some "host-b" else none))) initState
      = (Except.error (Exc.attributeError "slurm_config_template"), initState) := by
  refine ⟨rfl, ?_, rfl⟩
  intro h
  simp [mergedContext] at h

/-- C2 (amended): on a key collision the caller-supplied value, not the
derived hostname, is what the merge expression of `write_config` line 102
binds `"hostname"` to (the derived fact is the first `**` operand, so the
caller context wins last-merge-wins); and `write_config` as written never
uses any merged context at all, raising `AttributeError` on the undefined
attribute `slurm_config_template` before reaching the merge, leaving the
state untouched. -/
theorem C2_caller_context_wins (hostname : String) (m : String → Option String)
    (v : String) (h : m "hostname" = some v) :
    mergedContext hostname m "hostname" = some v
    ∧ ∀ env d s, (write_config env d (PyVal.dict m)) s
        = (Except.error (Exc.attributeError "slurm_config_template"), s) := by
  constructor
  · unfold mergedContext
    rw [h]
  · intro env d s
    rfl

/-- C2 witness: the amended C2 theorem applied at the concrete caller
context mapping `"hostname"` to `"host-b"` with resolved hostname
`"host-a"`. -/
theorem C2_witness :
    mergedContext "host-a" (fun k => if k = "hostname" then some "host-b" else none) "hostname"
      = some "host-b"
    ∧ ∀ env d s, (write_config env d
        (PyVal.dict (fun k => if k = "hostname" then some "host-b" else none))) s
        = (Except.error (Exc.attributeError "slurm_config_template"), s) :=
  C2_caller_context_wins "host-a" (fun k => if k = "hostname" then some "host-b" else none)
    "host-b" rfl

/-- C3 counterexample: the claim states that `_prepare_filesystem` on a
host where a directory of the layout manifest already exists logs the
directory-creation failure and continues to completion.  At the concrete
input where `/etc/sysconfig/slurm` already exists (all external commands
exiting 0), the bare `Path(...).mkdir(parents=True)` raises
`FileExistsError`, which nothing catches: the method aborts immediately,
logs nothing, and runs no chown command. -/
theorem C3_counterexample :
    (prepare_filesystem (allExit (fun _ => 0) none (fun _ => false)) "slurmctld")
        { initState with fsExists := fun p => decide (p = "/etc/sysconfig/slurm") }
      = (Except.error (Exc.fileExistsError "/etc/sysconfig/slurm"),
         { initState with fsExists := fun p => decide (p = "/etc/sysconfig/slurm") }) :=
  rfl

/-- C3 (amended): invoking `_prepare_filesystem` on a host where a
directory of its generic layout manifest already exists raises an uncaught
`FileExistsError` from `mkdir(parents=True)` (there is no handler and no
logging around the mkdir calls — only the chown sub-steps are wrapped), so
the failure is fatal, aborts the provisioning sequence, and repeated
invocation is not safe. -/
theorem C3_mkdir_failure_is_fatal (codes : Nat → Int) (f : Option String)
    (a : Nat → Bool) (component : String) (s : St)
    (h : s.fsExists "/etc/sysconfig/slurm" = true ∨ s.fsExists "/var/log/slurm" = true) :
    ((prepare_filesystem (allExit codes f a) component) s).1
        = Except.error (Exc.fileExistsError "/etc/sysconfig/slurm")
    ∨ ((prepare_filesystem (allExit codes f a) component) s).1
        = Except.error (Exc.fileExistsError "/var/log/slurm") := by
  by_cases h1 : s.fsExists "/etc/sysconfig/slurm" = true
  · left
    simp [prepare_filesystem, List.forM, bindM, Bind.bind, mkdirParents, h1]
  · right
    have h2 : s.fsExists "/var/log/slurm" = true := by
      rcases h with h | h
      · exact absurd h h1
      · exact h
    have h1' : s.fsExists "/etc/sysconfig/slurm" = false := by
      cases hb : s.fsExists "/etc/sysconfig/slurm"
      · rfl
      · exact absurd hb h1
    simp [prepare_filesystem, List.forM, bindM, Bind.bind, mkdirParents, h1', h2,
      chown_slurm_user_and_group_recursive, tryCPE, subprocessCall, allExit, pureM, Pure.pure]

/-- C3 witness: the amended C3 theorem applied at the concrete state in
which `/etc/sysconfig/slurm` already exists. -/
theorem C3_witness :
    ((prepare_filesystem (allExit (fun _ => 0) none (fun _ => false)) "slurmctld")
        { initState with fsExists := fun p => decide (p = "/etc/sysconfig/slurm") }).1
        = Except.error (Exc.fileExistsError "/etc/sysconfig/slurm")
    ∨ ((prepare_filesystem (allExit (fun _ => 0) none (fun _ => false)) "slurmctld")
        { initState with fsExists := fun p => decide (p = "/etc/sysconfig/slurm") }).1
        = Except.error (Exc.fileExistsError "/var/log/slurm") :=
  C3_mkdir_failure_is_fatal (fun _ => 0) none (fun _ => false) "slurmctld"
    { initState with fsExists := fun p => decide (p = "/etc/sysconfig/slurm") }
    (Or.inl rfl)

/-- C4 (confirmed): when the resource fetch fails (`ModelError`, modelled
as `fetchResult = none`), `_provision_slurm_resource` records the failure
in the log and aborts without proceeding to extraction: the local
`resource_path` stays unbound, so its use raises `NameError` before
`subprocess.call` is entered, the error propagates (it is not a
`CalledProcessError`), and the final command trace equals the initial one —
the archive tool is never invoked in that run. -/
theorem C4_fetch_failure_aborts_before_tar (o : Nat → CallResult) (a : Nat → Bool)
    (cd : String) (fuel : Nat) (s : St) :
    (provision_slurm_resource
        { outcome := o, fetchResult := none, availAt := a, charm_dir := cd } fuel) s
      = (Except.error (Exc.nameError "resource_path"),
         { s with logged := s.logged ++ ["Resource could not be found when executing: "] }) :=
  rfl

/-- C5 (code bug): the claim states that `write_config` with a non-dict
context fails with a type error and leaves the target config path
untouched.  The target is indeed untouched, but the failure is not the
type error of line 99: line 96 reads the undefined attribute
`slurm_config_template` (the class defines `_slurm_conf_template`, used
correctly at line 110), so every call — dict or not — raises
`AttributeError` first, with the state (hence the target path) unchanged.
The theorem evaluates the code at an arbitrary context, in particular at
the failing non-dict input `PyVal.str "x"`. -/
theorem C5_write_config_attribute_error (env : Env) (d : Descriptor)
    (context : PyVal) (s : St) :
    (write_config env d context) s
      = (Except.error (Exc.attributeError "slurm_config_template"), s)
    ∧ ((write_config env d (PyVal.str "x")) s).2.fsContents d.slurm_conf
      = s.fsContents d.slurm_conf
    ∧ ((write_config env d (PyVal.str "x")) s).2.fsExists d.slurm_conf
      = s.fsExists d.slurm_conf :=
  ⟨rfl, rfl, rfl⟩

/-- C6 (confirmed): a `start` operation of `slurm_systemctl` that spawns
the `systemctl` process normally returns normally and unconditionally sets
the durable `slurm_started` flag to true, whatever exit status the command
returns (the exit code is an arbitrary `codes` value, so in particular a
crashing service changes nothing), and the `slurm_component_started`
accessor subsequently reads true. -/
theorem C6_start_sets_started_flag (codes : Nat → Int) (f : Option String)
    (a : Nat → Bool) (component : String) (s : St) :
    ((slurm_systemctl (allExit codes f a) component "start") s).1 = Except.ok ()
    ∧ ((slurm_systemctl (allExit codes f a) component "start") s).2.slurm_started = true
    ∧ slurm_component_started ((slurm_systemctl (allExit codes f a) component "start") s).2
      = true :=
  ⟨rfl, rfl, rfl⟩

/-- C9 (confirmed): invoking `_create_slurm_user_and_group` twice in
succession raises past neither call: `subprocess.call` reports the
duplicate-account failure of the re-creation as a non-zero exit status
(the `codes` values are arbitrary) rather than an exception, so both
invocations return normally. -/
theorem C9_create_account_twice_ok (codes : Nat → Int) (f : Option String)
    (a : Nat → Bool) (s : St) :
    ((create_slurm_user_and_group (allExit codes f a)) s).1 = Except.ok ()
    ∧ ((create_slurm_user_and_group (allExit codes f a))
        ((create_slurm_user_and_group (allExit codes f a)) s).2).1 = Except.ok () :=
  ⟨rfl, rfl⟩

/-! ## Flag monotonicity infrastructure (for the durable StoredState flags) -/

/-- A computation never sets a durable flag back to false: whenever a flag
is true before the computation runs, it is still true after, whether the
computation returns or raises. -/
def FlagsMono {α : Type} (m : M α) : Prop :=
  ∀ s r s', m s = (r, s') →
    (s.slurm_installed = true → s'.slurm_installed = true) ∧
    (s.slurm_started = true → s'.slurm_started = true)

theorem flagsMono_pureM {α : Type} (a : α) : FlagsMono (pureM a) := by
  intro s r s' h
  have h2 : s = s' := congrArg Prod.snd h
  subst h2
  exact ⟨id, id⟩

theorem flagsMono_pure {α : Type} (a : α) : FlagsMono (pure a : M α) :=
  flagsMono_pureM a

theorem flagsMono_throwE {α : Type} (e : Exc) : FlagsMono (throwE e : M α) := by
  intro s r s' h
  have h2 : s = s' := congrArg Prod.snd h
  subst h2
  exact ⟨id, id⟩

theorem flagsMono_getSt : FlagsMono getSt := by
  intro s r s' h
  have h2 : s = s' := congrArg Prod.snd h
  subst h2
  exact ⟨id, id⟩

theorem flagsMono_modifySt {f : St → St}
    (hf : ∀ s, (s.slurm_installed = true → (f s).slurm_installed = true) ∧
      (s.slurm_started = true → (f s).slurm_started = true)) :
    FlagsMono (modifySt f) := by
  intro s r s' h
  have h2 : f s = s' := congrArg Prod.snd h
  subst h2
  exact hf s

theorem flagsMono_logError (msg : String) : FlagsMono (logError msg) :=
  flagsMono_modifySt fun _ => ⟨fun h => h, fun h => h⟩

theorem flagsMono_bindM {α β : Type} {x : M α} {f : α → M β}
    (hx : FlagsMono x) (hf : ∀ a, FlagsMono (f a)) : FlagsMono (bindM x f) := by
  intro s r s' h
  cases hxs : x s with
  | mk xr t =>
    have hred : bindM x f s =
        (match x s with
         | (Except.ok a, t) => f a t
         | (Except.error e, t) => (Except.error e, t)) := rfl
    rw [hxs] at hred
    cases xr with
    | ok a =>
      have h2 : f a t = (r, s') := hred.symm.trans h
      have m1 := hx s (Except.ok a) t hxs
      have m2 := hf a t r s' h2
      exact ⟨fun hi => m2.1 (m1.1 hi), fun hi => m2.2 (m1.2 hi)⟩
    | error e =>
      have h2 : ((Except.error e : Except Exc β), t) = (r, s') := hred.symm.trans h
      have h3 : t = s' := congrArg Prod.snd h2
      subst h3
      exact hx s (Except.error e) t hxs

theorem flagsMono_bind {α β : Type} {x : M α} {f : α → M β}
    (hx : FlagsMono x) (hf : ∀ a, FlagsMono (f a)) : FlagsMono (x >>= f) :=
  flagsMono_bindM hx hf

theorem flagsMono_ite {α : Type} {c : Prop} [Decidable c] {t e : M α}
    (ht : FlagsMono t) (he : FlagsMono e) : FlagsMono (if c then t else e) := by
  by_cases h : c
  · rw [if_pos h]; exact ht
  · rw [if_neg h]; exact he

theorem flagsMono_tryCPE {α : Type} {body handler : M α}
    (hb : FlagsMono body) (hh : FlagsMono handler) : FlagsMono (tryCPE body handler) := by
  intro s r s' h
  cases hbs : body s with
  | mk br t =>
    have hred : tryCPE body handler s =
        (match body s with
         | (Except.ok a, t) => (Except.ok a, t)
         | (Except.error e, t) =>
           match e with
           | Exc.calledProcessError => handler t
           | _ => (Except.error e, t)) := rfl
    rw [hbs] at hred
    cases br with
    | ok a =>
      have h2 : ((Except.ok a : Except Exc α), t) = (r, s') := hred.symm.trans h
      have h3 : t = s' := congrArg Prod.snd h2
      subst h3
      exact hb s (Except.ok a) t hbs
    | error e =>
      have m1 := hb s (Except.error e) t hbs
      cases e with
      | calledProcessError =>
        have h2 : handler t = (r, s') := hred.symm.trans h
        have m2 := hh t r s' h2
        exact ⟨fun hi => m2.1 (m1.1 hi), fun hi => m2.2 (m1.2 hi)⟩
      | genericError msg =>
        have h2 : ((Except.error (Exc.genericError msg) : Except Exc α), t) = (r, s') := hred.symm.trans h
        have h3 : t = s' := congrArg Prod.snd h2
        subst h3
        exact m1
      | typeError msg =>
        have h2 : ((Except.error (Exc.typeError msg) : Except Exc α), t) = (r, s') := hred.symm.trans h
        have h3 : t = s' := congrArg Prod.snd h2
        subst h3
        exact m1
      | fileNotFoundError msg =>
        have h2 : ((Except.error (Exc.fileNotFoundError msg) : Except Exc α), t) = (r, s') := hred.symm.trans h
        have h3 : t = s' := congrArg Prod.snd h2
        subst h3
        exact m1
      | fileExistsError p =>
        have h2 : ((Except.error (Exc.fileExistsError p) : Except Exc α), t) = (r, s') := hred.symm.trans h
        have h3 : t = s' := congrArg Prod.snd h2
        subst h3
        exact m1
      | attributeError a2 =>
        have h2 : ((Except.error (Exc.attributeError a2) : Except Exc α), t) = (r, s') := hred.symm.trans h
        have h3 : t = s' := congrArg Prod.snd h2
        subst h3
        exact m1
      | nameError v =>
        have h2 : ((Except.error (Exc.nameError v) : Except Exc α), t) = (r, s') := hred.symm.trans h
        have h3 : t = s' := congrArg Prod.snd h2
        subst h3
        exact m1
      | osError =>
        have h2 : ((Except.error Exc.osError : Except Exc α), t) = (r, s') := hred.symm.trans h
        have h3 : t = s' := congrArg Prod.snd h2
        subst h3
        exact m1
      | unboundedLoop =>
        have h2 : ((Except.error Exc.unboundedLoop : Except Exc α), t) = (r, s') := hred.symm.trans h
        have h3 : t = s' := congrArg Prod.snd h2
        subst h3
        exact m1

theorem flagsMono_subprocessCall (env : Env) (c : Cmd) : FlagsMono (subprocessCall env c) := by
  intro s r s' h
  cases ho : env.outcome s.counter with
  | spawnErr =>
    have hred : subprocessCall env c s
        = (Except.error Exc.osError,
           { s with calls := s.calls ++ [c], counter := s.counter + 1 }) := by
      unfold subprocessCall
      rw [ho]
    rw [hred] at h
    have h3 : ({ s with calls := s.calls ++ [c], counter := s.counter + 1 } : St) = s' :=
      congrArg Prod.snd h
    subst h3
    exact ⟨fun hi => hi, fun hi => hi⟩
  | exit code =>
    have hred : subprocessCall env c s
        = (Except.ok code,
           { s with calls := s.calls ++ [c], counter := s.counter + 1 }) := by
      unfold subprocessCall
      rw [ho]
    rw [hred] at h
    have h3 : ({ s with calls := s.calls ++ [c], counter := s.counter + 1 } : St) = s' :=
      congrArg Prod.snd h
    subst h3
    exact ⟨fun hi => hi, fun hi => hi⟩

theorem flagsMono_mkdirParents (p : String) : FlagsMono (mkdirParents p) := by
  intro s r s' h
  by_cases hb : s.fsExists p
  · have hred : mkdirParents p s = (Except.error (Exc.fileExistsError p), s) := by
      unfold mkdirParents
      rw [if_pos hb]
    rw [hred] at h
    have h3 : s = s' := congrArg Prod.snd h
    subst h3
    exact ⟨id, id⟩
  · have hred : mkdirParents p s
        = (Except.ok (),
           { s with fsExists := fun q => if q = p then true else s.fsExists q }) := by
      unfold mkdirParents
      rw [if_neg hb]
    rw [hred] at h
    have h3 : ({ s with fsExists := fun q => if q = p then true else s.fsExists q } : St) = s' :=
      congrArg Prod.snd h
    subst h3
    exact ⟨fun hi => hi, fun hi => hi⟩

theorem flagsMono_touchFile (p : String) : FlagsMono (touchFile p) :=
  flagsMono_modifySt fun _ => ⟨fun h => h, fun h => h⟩

theorem flagsMono_writeText (p txt : String) : FlagsMono (writeText p txt) :=
  flagsMono_modifySt fun _ => ⟨fun h => h, fun h => h⟩

theorem flagsMono_forM {α : Type} {l : List α} {f : α → M PUnit}
    (hf : ∀ a, FlagsMono (f a)) : FlagsMono (l.forM f) := by
  induction l with
  | nil => exact flagsMono_pure PUnit.unit
  | cons a as ih => exact flagsMono_bind (hf a) fun _ => ih

theorem flagsMono_waitReady (env : Env) : ∀ fuel : Nat, FlagsMono (waitReady env fuel) := by
  intro fuel
  induction fuel with
  | zero => exact flagsMono_throwE Exc.unboundedLoop
  | succ n ih =>
    intro s r s' h
    simp only [waitReady] at h
    by_cases ha : env.availAt s.clock = true
    · rw [if_pos ha] at h
      have hs : s = s' := congrArg Prod.snd h
      subst hs
      exact ⟨id, id⟩
    · rw [if_neg ha] at h
      exact ih { s with clock := s.clock + 1 } r s' h

theorem flagsMono_slurm_systemctl (env : Env) (component operation : String) :
    FlagsMono (slurm_systemctl env component operation) := by
  unfold slurm_systemctl
  exact flagsMono_ite (flagsMono_throwE _)
    (flagsMono_tryCPE
      (flagsMono_bind (flagsMono_subprocessCall env _) fun _ =>
        flagsMono_ite (flagsMono_modifySt fun _ => ⟨fun h => h, fun _ => rfl⟩)
          (flagsMono_pureM ()))
      (flagsMono_logError _))

theorem flagsMono_write_config (env : Env) (d : Descriptor) (context : PyVal) :
    FlagsMono (write_config env d context) :=
  flagsMono_throwE _

theorem flagsMono_chown (env : Env) (dir : String) :
    FlagsMono (chown_slurm_user_and_group_recursive env dir) := by
  unfold chown_slurm_user_and_group_recursive
  exact flagsMono_tryCPE
    (flagsMono_bind (flagsMono_subprocessCall env _) fun _ => flagsMono_pureM ())
    (flagsMono_logError _)

theorem flagsMono_create_user (env : Env) :
    FlagsMono (create_slurm_user_and_group env) := by
  unfold create_slurm_user_and_group
  exact flagsMono_bind
    (flagsMono_tryCPE
      (flagsMono_bind (flagsMono_subprocessCall env _) fun _ => flagsMono_pureM ())
      (flagsMono_logError _))
    fun _ =>
      flagsMono_tryCPE
        (flagsMono_bind (flagsMono_subprocessCall env _) fun _ => flagsMono_pureM ())
        (flagsMono_logError _)

theorem flagsMono_prepare_for_slurmd (env : Env) :
    FlagsMono (prepare_for_slurmd env) := by
  unfold prepare_for_slurmd
  exact flagsMono_bind
    (flagsMono_forM fun a =>
      flagsMono_bind (flagsMono_mkdirParents a) fun _ => flagsMono_chown env a)
    fun _ =>
      flagsMono_bind (flagsMono_forM fun a => flagsMono_touchFile a)
        fun _ => flagsMono_chown env _

theorem flagsMono_prepare_filesystem (env : Env) (component : String) :
    FlagsMono (prepare_filesystem env component) := by
  unfold prepare_filesystem
  exact flagsMono_bind
    (flagsMono_forM fun a =>
      flagsMono_bind (flagsMono_mkdirParents a) fun _ => flagsMono_chown env a)
    fun _ => flagsMono_ite (flagsMono_prepare_for_slurmd env) (flagsMono_pureM ())

theorem flagsMono_provision (env : Env) (fuel : Nat) :
    FlagsMono (provision_slurm_resource env fuel) := by
  unfold provision_slurm_resource
  apply flagsMono_bindM
  · cases env.fetchResult with
    | some p => exact flagsMono_pureM _
    | none => exact flagsMono_bindM (flagsMono_logError _) fun _ => flagsMono_pureM _
  · intro rp
    apply flagsMono_bindM
    · apply flagsMono_tryCPE
      · apply flagsMono_bindM
        · cases rp with
          | some p => exact flagsMono_pureM _
          | none => exact flagsMono_throwE _
        · intro p
          exact flagsMono_bindM (flagsMono_subprocessCall env _) fun _ => flagsMono_pureM ()
      · exact flagsMono_logError _
    · intro _
      exact flagsMono_bindM (flagsMono_waitReady env fuel) fun _ =>
        flagsMono_forM fun a =>
          flagsMono_tryCPE
            (flagsMono_bindM (flagsMono_subprocessCall env _) fun _ => flagsMono_pureM ())
            (flagsMono_logError _)

theorem flagsMono_set_ld (env : Env) : FlagsMono (set_ld_library_path env) := by
  unfold set_ld_library_path
  exact flagsMono_bind (flagsMono_writeText _ _) fun _ =>
    flagsMono_tryCPE
      (flagsMono_bind (flagsMono_subprocessCall env _) fun _ => flagsMono_pureM ())
      (flagsMono_logError _)

theorem flagsMono_setup_systemd (env : Env) (d : Descriptor) :
    FlagsMono (setup_systemd env d) := by
  unfold setup_systemd
  exact flagsMono_tryCPE
    (flagsMono_bind (flagsMono_subprocessCall env _) fun _ =>
      flagsMono_bind (flagsMono_subprocessCall env _) fun _ =>
        flagsMono_slurm_systemctl env _ _)
    (flagsMono_logError _)

theorem flagsMono_prepare_system (env : Env) (d : Descriptor) (fuel : Nat) :
    FlagsMono (prepare_system_for_slurm env d fuel) := by
  unfold prepare_system_for_slurm
  exact flagsMono_bind (flagsMono_create_user env) fun _ =>
    flagsMono_bind (flagsMono_prepare_filesystem env _) fun _ =>
      flagsMono_bind (flagsMono_provision env fuel) fun _ =>
        flagsMono_bind (flagsMono_set_ld env) fun _ =>
          flagsMono_bind (flagsMono_setup_systemd env d) fun _ =>
            flagsMono_modifySt fun _ => ⟨fun _ => rfl, fun h => h⟩

theorem flagsMono_runOp (env : Env) (d : Descriptor) (op : ManagerOp) :
    FlagsMono (runOp env d op) := by
  cases op with
  | systemctl operation => exact flagsMono_slurm_systemctl env _ operation
  | writeConfig context => exact flagsMono_write_config env d context
  | prepareSystem fuel => exact flagsMono_prepare_system env d fuel
  | chownDir dir => exact flagsMono_chown env dir
  | createUser => exact flagsMono_create_user env
  | prepareFs => exact flagsMono_prepare_filesystem env _
  | prepareSlurmd => exact flagsMono_prepare_for_slurmd env
  | provision fuel => exact flagsMono_provision env fuel
  | setLd => exact flagsMono_set_ld env
  | setupUnit => exact flagsMono_setup_systemd env d

theorem bool_le_of_imp {b c : Bool} (h : b = true → c = true) : b ≤ c := by
  cases b <;> cases c
  · decide
  · decide
  · exact absurd (h rfl) (by decide)
  · decide

/-- C7 (confirmed): both durable flags default to false after construction
(`set_default`), and no operation of the manager ever sets a flag back to
false: for every environment, component descriptor, operation and state,
the flags after running the operation are at least the flags before (the
only flag writes in the module are `slurm_started := true` in a `start`
operation and `slurm_installed := true` at the end of
`prepare_system_for_slurm`), so the flags are monotone and never reset. -/
theorem C7_flags_monotone :
    initState.slurm_installed = false ∧ initState.slurm_started = false ∧
    ∀ (env : Env) (d : Descriptor) (op : ManagerOp) (s : St),
      s.slurm_installed ≤ ((runOp env d op) s).2.slurm_installed ∧
      s.slurm_started ≤ ((runOp env d op) s).2.slurm_started := by
  refine ⟨rfl, rfl, ?_⟩
  intro env d op s
  have h := flagsMono_runOp env d op s ((runOp env d op) s).1 ((runOp env d op) s).2 rfl
  exact ⟨bool_le_of_imp h.1, bool_le_of_imp h.2⟩

/-! ## Readiness-wait infrastructure (for the extraction poll) -/

theorem waitReady_spec (env : Env) : ∀ (fuel : Nat) (s : St) (r : Except Exc Unit) (s' : St),
    waitReady env fuel s = (r, s') →
    s' = { s with clock := s'.clock }
    ∧ s.clock ≤ s'.clock
    ∧ (r = Except.ok () → env.availAt s'.clock = true
        ∧ ∀ t, s.clock ≤ t → t < s'.clock → env.availAt t = false)
    ∧ ∀ e, r = Except.error e → e = Exc.unboundedLoop := by
  intro fuel
  induction fuel with
  | zero =>
    intro s r s' h
    have hr : (Except.error Exc.unboundedLoop : Except Exc Unit) = r := congrArg Prod.fst h
    have hs : s = s' := congrArg Prod.snd h
    subst hs
    subst hr
    refine ⟨rfl, le_refl _, ?_, ?_⟩
    · intro hok
      exact nomatch hok
    · intro e he
      injection he with h2
      exact h2.symm
  | succ n ih =>
    intro s r s' h
    simp only [waitReady] at h
    by_cases ha : env.availAt s.clock = true
    · rw [if_pos ha] at h
      have hr : (Except.ok () : Except Exc Unit) = r := congrArg Prod.fst h
      have hs : s = s' := congrArg Prod.snd h
      subst hs
      subst hr
      refine ⟨rfl, le_refl _, ?_, ?_⟩
      · intro hok
        refine ⟨ha, fun t h1 h2 => ?_⟩
        exact absurd (lt_of_le_of_lt h1 h2) (lt_irrefl _)
      · intro e he
        exact nomatch he
    · rw [if_neg ha] at h
      obtain ⟨ih1, ih2, ih3, ih4⟩ := ih { s with clock := s.clock + 1 } r s' h
      have hfalse : env.availAt s.clock = false := by
        cases hb : env.availAt s.clock
        · rfl
        · exact absurd hb ha
      refine ⟨ih1, ?_, ?_, ih4⟩
      · exact le_trans (Nat.le_succ _) ih2
      · intro hok
        obtain ⟨hA, hI⟩ := ih3 hok
        refine ⟨hA, fun t h1 h2 => ?_⟩
        rcases Nat.eq_or_lt_of_le h1 with he | hlt
        · rw [← he]
          exact hfalse
        · exact hI t hlt h2

theorem waitReady_fail (env : Env) : ∀ (k : Nat) (s : St),
    (∀ i, i < k → env.availAt (s.clock + i) = false) →
    waitReady env k s = (Except.error Exc.unboundedLoop, { s with clock := s.clock + k }) := by
  intro k
  induction k with
  | zero =>
    intro s _
    rfl
  | succ k ih =>
    intro s h
    have ha : env.availAt s.clock = false := by
      have h0 := h 0 (Nat.succ_pos k)
      simpa using h0
    simp only [waitReady]
    rw [if_neg (by rw [ha]; exact Bool.false_ne_true)]
    have hshift : ∀ i, i < k →
        env.availAt (({ s with clock := s.clock + 1 } : St).clock + i) = false := by
      intro i hi
      have harith : s.clock + 1 + i = s.clock + (i + 1) := by omega
      show env.availAt (s.clock + 1 + i) = false
      rw [harith]
      exact h (i + 1) (by omega)
    have hres := ih { s with clock := s.clock + 1 } hshift
    rw [hres]
    have harith2 : s.clock + 1 + k = s.clock + (k + 1) := by omega
    show (Except.error Exc.unboundedLoop, { s with clock := s.clock + 1 + k })
        = (Except.error Exc.unboundedLoop, { s with clock := s.clock + (k + 1) })
    rw [harith2]

theorem waitReady_hit (env : Env) : ∀ (k : Nat) (s : St) (fuel : Nat),
    (∀ i, i < k → env.availAt (s.clock + i) = false) →
    env.availAt (s.clock + k) = true → k < fuel →
    waitReady env fuel s = (Except.ok (), { s with clock := s.clock + k }) := by
  intro k
  induction k with
  | zero =>
    intro s fuel _ ha hf
    cases fuel with
    | zero => exact absurd hf (Nat.lt_irrefl 0)
    | succ m =>
      have ha' : env.availAt s.clock = true := by simpa using ha
      simp only [waitReady]
      rw [if_pos ha']
      rfl
  | succ k ih =>
    intro s fuel h ha hf
    cases fuel with
    | zero => exact absurd hf (Nat.not_lt_zero _)
    | succ m =>
      have ha0 : env.availAt s.clock = false := by
        have h0 := h 0 (Nat.succ_pos k)
        simpa using h0
      simp only [waitReady]
      rw [if_neg (by rw [ha0]; exact Bool.false_ne_true)]
      have hshift : ∀ i, i < k →
          env.availAt (({ s with clock := s.clock + 1 } : St).clock + i) = false := by
        intro i hi
        have harith : s.clock + 1 + i = s.clock + (i + 1) := by omega
        show env.availAt (s.clock + 1 + i) = false
        rw [harith]
        exact h (i + 1) (by omega)
      have hhit : env.availAt (({ s with clock := s.clock + 1 } : St).clock + k) = true := by
        have harith : s.clock + 1 + k = s.clock + (k + 1) := by omega
        show env.availAt (s.clock + 1 + k) = true
        rw [harith]
        exact ha
      have hres := ih { s with clock := s.clock + 1 } m hshift hhit (by omega)
      rw [hres]
      have harith2 : s.clock + 1 + k = s.clock + (k + 1) := by omega
      show (Except.ok (), { s with clock := s.clock + 1 + k })
          = (Except.ok (), { s with clock := s.clock + (k + 1) })
      rw [harith2]

def ClockInv {α : Type} (m : M α) : Prop :=
  ∀ s r s', m s = (r, s') → s'.clock = s.clock

theorem clockInv_pureM {α : Type} (a : α) : ClockInv (pureM a) := by
  intro s r s' h
  have h2 : s = s' := congrArg Prod.snd h
  subst h2
  rfl

theorem clockInv_logError (msg : String) : ClockInv (logError msg) := by
  intro s r s' h
  have h2 : ({ s with logged := s.logged ++ [msg] } : St) = s' := congrArg Prod.snd h
  subst h2
  rfl

theorem clockInv_subprocessCall (env : Env) (c : Cmd) : ClockInv (subprocessCall env c) := by
  intro s r s' h
  cases ho : env.outcome s.counter with
  | spawnErr =>
    have hred : subprocessCall env c s
        = (Except.error Exc.osError,
           { s with calls := s.calls ++ [c], counter := s.counter + 1 }) := by
      unfold subprocessCall
      rw [ho]
    have h3 : ({ s with calls := s.calls ++ [c], counter := s.counter + 1 } : St) = s' :=
      congrArg Prod.snd (hred.symm.trans h)
    subst h3
    rfl
  | exit code =>
    have hred : subprocessCall env c s
        = (Except.ok code,
           { s with calls := s.calls ++ [c], counter := s.counter + 1 }) := by
      unfold subprocessCall
      rw [ho]
    have h3 : ({ s with calls := s.calls ++ [c], counter := s.counter + 1 } : St) = s' :=
      congrArg Prod.snd (hred.symm.trans h)
    subst h3
    rfl

theorem clockInv_bindM {α β : Type} {x : M α} {f : α → M β}
    (hx : ClockInv x) (hf : ∀ a, ClockInv (f a)) : ClockInv (bindM x f) := by
  intro s r s' h
  cases hxs : x s with
  | mk xr t =>
    have hred : bindM x f s =
        (match x s with
         | (Except.ok a, t) => f a t
         | (Except.error e, t) => (Except.error e, t)) := rfl
    rw [hxs] at hred
    cases xr with
    | ok a =>
      have h2 : f a t = (r, s') := hred.symm.trans h
      rw [hf a t r s' h2, hx s _ t hxs]
    | error e =>
      have h3 : t = s' := congrArg Prod.snd (hred.symm.trans h)
      subst h3
      exact hx s _ t hxs

theorem clockInv_tryCPE {α : Type} {body handler : M α}
    (hb : ClockInv body) (hh : ClockInv handler) : ClockInv (tryCPE body handler) := by
  intro s r s' h
  cases hbs : body s with
  | mk br t =>
    have hred : tryCPE body handler s =
        (match body s with
         | (Except.ok a, t) => (Except.ok a, t)
         | (Except.error e, t) =>
           match e with
           | Exc.calledProcessError => handler t
           | _ => (Except.error e, t)) := rfl
    rw [hbs] at hred
    cases br with
    | ok a =>
      have h3 : t = s' := congrArg Prod.snd (hred.symm.trans h)
      subst h3
      exact hb s _ t hbs
    | error e =>
      cases e
      case calledProcessError =>
        have h2 : handler t = (r, s') := hred.symm.trans h
        rw [hh t r s' h2, hb s _ t hbs]
      all_goals {
        have h3 : t = s' := congrArg Prod.snd (hred.symm.trans h)
        subst h3
        exact hb s _ t hbs
      }

theorem clockInv_forM {α : Type} {l : List α} {f : α → M PUnit}
    (hf : ∀ a, ClockInv (f a)) : ClockInv (l.forM f) := by
  induction l with
  | nil => exact clockInv_pureM PUnit.unit
  | cons a as ih =>
    intro s r s' h
    exact clockInv_bindM (hf a) (fun _ => ih) s r s' h

theorem provision_shell_implies_avail (env : Env) (fuel : Nat) (s : St)
    (r : Except Exc Unit) (s' : St)
    (h : (provision_slurm_resource env fuel) s = (r, s'))
    (hnew : ∃ line, Cmd.shell line ∈ s'.calls ∧ Cmd.shell line ∉ s.calls) :
    env.availAt s'.clock = true := by
  obtain ⟨o, fr, av, cd⟩ := env
  cases fr with
  | none =>
    have hs2 : ({ s with logged := s.logged ++ ["Resource could not be found when executing: "] } : St)
        = s' := congrArg Prod.snd h
    obtain ⟨line, hmem, hnot⟩ := hnew
    rw [← hs2] at hmem
    exact absurd hmem hnot
  | some p =>
    simp only [provision_slurm_resource, bindM, tryCPE, subprocessCall, pureM, logError,
      modifySt, throwE] at h
    cases hO : o s.counter with
    | spawnErr =>
      simp only [hO] at h
      obtain ⟨line, hmem, hnot⟩ := hnew
      have hs2 : ({ s with
          counter := s.counter + 1,
          calls := s.calls ++ [Cmd.argv ["tar", "-xzvf", p, "--one-top-level=/tmp/slurm-resource"]] } : St)
          = s' := congrArg Prod.snd h
      have hcalls : s'.calls = s.calls
          ++ [Cmd.argv ["tar", "-xzvf", p, "--one-top-level=/tmp/slurm-resource"]] := by
        rw [← hs2]
      rw [hcalls] at hmem
      rcases List.mem_append.mp hmem with hA | hB
      · exact absurd hA hnot
      · simp at hB
    | exit code =>
      simp only [hO] at h
      split at h
      · rename_i a2 t2 hW
        obtain ⟨hW1, hW2, hW3, hW4⟩ :=
          waitReady_spec { outcome := o, fetchResult := some p, availAt := av, charm_dir := cd }
            fuel _ (Except.ok a2) t2 hW
        have havail := (hW3 rfl).1
        have hclock := clockInv_forM
          (fun a => clockInv_tryCPE
            (clockInv_bindM
              (clockInv_subprocessCall
                { outcome := o, fetchResult := some p, availAt := av, charm_dir := cd } _)
              fun _ => clockInv_pureM ())
            (clockInv_logError _)) t2 r s' h
        rw [hclock]
        exact havail
      · rename_i e2 t2 hW
        obtain ⟨hW1, hW2, hW3, hW4⟩ :=
          waitReady_spec { outcome := o, fetchResult := some p, availAt := av, charm_dir := cd }
            fuel _ (Except.error e2) t2 hW
        obtain ⟨line, hmem, hnot⟩ := hnew
        have hs2 : t2 = s' := congrArg Prod.snd h
        have hcalls : s'.calls = s.calls
            ++ [Cmd.argv ["tar", "-xzvf", p, "--one-top-level=/tmp/slurm-resource"]] := by
          rw [← hs2, hW1]
        rw [hcalls] at hmem
        rcases List.mem_append.mp hmem with hA | hB
        · exact absurd hA hnot
        · simp at hB

/-- C8 (confirmed): in every execution of `_provision_slurm_resource`, the
copy of the four standard subtrees (the `shell=True` cp commands, the only
shell commands the module issues) never begins before the readiness-signal
file `/tmp/slurm-resource/sbin/slurmd` exists: (i) whenever the poll
returns, the file exists at the return clock and every clock tick from the
entry clock up to it was checked and found missing — a fixed-interval poll
advancing one time unit per failed check; (ii) in any run of
`_provision_slurm_resource` that traces a new shell (copy) command, the
file exists at the final clock, which is the clock the poll returned at
(the copy phase does not advance the clock); (iii) the poll has no upper
bound on the number of checks: for every bound n there is an environment
in which n checks are not enough (the loop marker is still raised) yet
n + 1 checks succeed. -/
theorem C8_copy_waits_for_readiness :
    (∀ (env : Env) (fuel : Nat) (s : St) (r : Except Exc Unit) (s' : St),
        waitReady env fuel s = (r, s') → r = Except.ok () →
        env.availAt s'.clock = true ∧ s.clock ≤ s'.clock ∧
        ∀ t, s.clock ≤ t → t < s'.clock → env.availAt t = false)
    ∧ (∀ (env : Env) (fuel : Nat) (s : St) (r : Except Exc Unit) (s' : St),
        (provision_slurm_resource env fuel) s = (r, s') →
        (∃ line, Cmd.shell line ∈ s'.calls ∧ Cmd.shell line ∉ s.calls) →
        env.availAt s'.clock = true)
    ∧ (∀ n : Nat, ∃ (env : Env) (s' s'' : St),
        waitReady env n initState = (Except.error Exc.unboundedLoop, s')
        ∧ waitReady env (n + 1) initState = (Except.ok (), s'')) := by
  refine ⟨?_, ?_, ?_⟩
  · intro env fuel s r s' h hok
    obtain ⟨h1, h2, h3, h4⟩ := waitReady_spec env fuel s r s' h
    obtain ⟨hA, hI⟩ := h3 hok
    exact ⟨hA, h2, hI⟩
  · exact fun env fuel s r s' => provision_shell_implies_avail env fuel s r s'
  · intro n
    refine ⟨allExit (fun _ => 0) none (fun t => decide (t = n)),
      { initState with clock := 0 + n }, { initState with clock := 0 + n }, ?_, ?_⟩
    · apply waitReady_fail
      intro i hi
      show decide (0 + i = n) = false
      have hne : ¬ (i = n) := by omega
      simp [hne]
    · apply waitReady_hit
      · intro i hi
        show decide (0 + i = n) = false
        have hne : ¬ (i = n) := by omega
        simp [hne]
      · show decide (0 + n = n) = true
        simp
      · exact Nat.lt_succ_self n

/-- C8 witness: the poll specification of C8 applied at the concrete
environment in which the readiness file appears at clock 1, with fuel 3:
the poll returns at clock 1, where the file exists and clock 0 was checked
and found missing. -/
theorem C8_witness :
    (allExit (fun _ => 0) none (fun t => decide (t = 1))).availAt
        ({ initState with clock := 1 } : St).clock = true
    ∧ initState.clock ≤ ({ initState with clock := 1 } : St).clock
    ∧ ∀ t, initState.clock ≤ t → t < ({ initState with clock := 1 } : St).clock →
        (allExit (fun _ => 0) none (fun t => decide (t = 1))).availAt t = false :=
  C8_copy_waits_for_readiness.1 (allExit (fun _ => 0) none (fun t => decide (t = 1))) 3
    initState (Except.ok ()) { initState with clock := 1 } rfl rfl

/-- C10 (confirmed, implicit claim): `subprocess.call` returns the exit
status and never raises `CalledProcessError`, so in every external-command
wrapper of the module the `except subprocess.CalledProcessError` branch is
unreachable: `subprocessCall` never produces `Exc.calledProcessError`
(first conjunct), and consequently — for arbitrary exit statuses `codes`,
including non-zero ones — account creation, recursive chown, the lifecycle
operations start/stop/restart, dynamic-linker registration, the resource
provisioning run (fetch resolved, readiness immediate) all return normally
with the log unchanged, and systemd setup also logs nothing (it fails, but
with the uncaught unsupported-operation exception of C1, not through its
handler): a non-zero exit of the external command is silently ignored and
nothing is logged, despite the swallow-and-log policy. -/
theorem C10_called_process_error_unreachable :
    (∀ (env : Env) (c : Cmd) (s : St),
        ((subprocessCall env c) s).1 ≠ Except.error Exc.calledProcessError)
    ∧ (∀ (codes : Nat → Int) (f : Option String) (a : Nat → Bool) (dir : String) (s : St),
        ((chown_slurm_user_and_group_recursive (allExit codes f a) dir) s).1 = Except.ok ()
        ∧ ((chown_slurm_user_and_group_recursive (allExit codes f a) dir) s).2.logged
          = s.logged)
    ∧ (∀ (codes : Nat → Int) (f : Option String) (a : Nat → Bool) (s : St),
        ((create_slurm_user_and_group (allExit codes f a)) s).1 = Except.ok ()
        ∧ ((create_slurm_user_and_group (allExit codes f a)) s).2.logged = s.logged)
    ∧ (∀ (codes : Nat → Int) (f : Option String) (a : Nat → Bool) (component : String) (s : St),
        (((slurm_systemctl (allExit codes f a) component "start") s).1 = Except.ok ()
          ∧ ((slurm_systemctl (allExit codes f a) component "start") s).2.logged = s.logged)
        ∧ (((slurm_systemctl (allExit codes f a) component "stop") s).1 = Except.ok ()
          ∧ ((slurm_systemctl (allExit codes f a) component "stop") s).2.logged = s.logged)
        ∧ (((slurm_systemctl (allExit codes f a) component "restart") s).1 = Except.ok ()
          ∧ ((slurm_systemctl (allExit codes f a) component "restart") s).2.logged = s.logged))
    ∧ (∀ (codes : Nat → Int) (f : Option String) (a : Nat → Bool) (s : St),
        ((set_ld_library_path (allExit codes f a)) s).1 = Except.ok ()
        ∧ ((set_ld_library_path (allExit codes f a)) s).2.logged = s.logged)
    ∧ (∀ (codes : Nat → Int) (f : Option String) (a : Nat → Bool) (d : Descriptor) (s : St),
        ((setup_systemd (allExit codes f a) d) s).2.logged = s.logged)
    ∧ (∀ (codes : Nat → Int) (p : String) (s : St),
        ((provision_slurm_resource (allExit codes (some p) (fun _ => true)) 1) s).1
          = Except.ok ()
        ∧ ((provision_slurm_resource (allExit codes (some p) (fun _ => true)) 1) s).2.logged
          = s.logged) := by
  refine ⟨?_, ?_, ?_, ?_, ?_, ?_, ?_⟩
  · intro env c s
    cases ho : env.outcome s.counter with
    | spawnErr =>
      have hred : subprocessCall env c s
          = (Except.error Exc.osError,
             { s with calls := s.calls ++ [c], counter := s.counter + 1 }) := by
        unfold subprocessCall
        rw [ho]
      rw [hred]
      simp
    | exit code =>
      have hred : subprocessCall env c s
          = (Except.ok code,
             { s with calls := s.calls ++ [c], counter := s.counter + 1 }) := by
        unfold subprocessCall
        rw [ho]
      rw [hred]
      simp
  · exact fun codes f a dir s => ⟨rfl, rfl⟩
  · exact fun codes f a s => ⟨rfl, rfl⟩
  · exact fun codes f a component s => ⟨⟨rfl, rfl⟩, ⟨rfl, rfl⟩, ⟨rfl, rfl⟩⟩
  · exact fun codes f a s => ⟨rfl, rfl⟩
  · exact fun codes f a d s => rfl
  · exact fun codes p s => ⟨rfl, rfl⟩
